import Mathlib

/-!
Shallow embedding of the affordability computation engine of
`map_app.js` (class `HousingCostMap`): the mortgage model
(`_calculateMortgage`), the per-area recompute pass (`_updateAllRatios`,
`_calculateQuartilePayments`), the row projection and default ordering
(`_prepareAndRenderTable`), user-triggered column sorting (`_sortColumn`)
and filtering (`_filterTable`).

Modelling conventions:
* JS numbers are modelled as exact rationals (ℚ).  The loan term is
  modelled as a whole number of years (the exponent of the amortization
  power), so `Math.pow` becomes a natural-number power.
* A JS field that may be `undefined`, `null`, a finite number or
  `Infinity` is modelled by the inductive `JSNum`; raw data fields that
  are only ever `null`-or-number are modelled by `Option ℚ`.
* JS truthiness of a number is `≠ 0`; `x || 0` on an optional number is
  `Option.getD x 0`; `x == null` (loose equality) is true exactly on
  `null` and `undefined`.
* `Array.prototype.sort` with a comparison function is modelled as a
  stable merge sort by the relation "the comparator is ≤ 0", with the
  pairs on which the source comparator is inconsistent (both orders
  positive, which happens only between two `null`-valued entries, and
  the `NaN` produced by `Infinity - Infinity`, which a JS sort treats
  as 0) modelled as ties.
-/

/-- A JavaScript numeric field value: `undefined` (property unset),
`null`, a finite number, or `Infinity`. -/
inductive JSNum where
  | undef : JSNum
  | null : JSNum
  | num : ℚ → JSNum
  | inf : JSNum
deriving DecidableEq

/-- ℚ extended with a top element; the codomain of the sort keys
(`Infinity` sorts above every finite number). -/
inductive XQ where
  | fin : ℚ → XQ
  | top : XQ
deriving DecidableEq

/-- Order on `XQ`: finite values by ℚ, `top` above everything. -/
def XQ.ble : XQ → XQ → Bool
  | _, XQ.top => true
  | XQ.top, XQ.fin _ => false
  | XQ.fin a, XQ.fin b => decide (a ≤ b)

/-- Repayment type: the `mortgageType` select, `'PI'` or `'IO'`. -/
inductive MortgageType where
  | principalAndInterest : MortgageType
  | interestOnly : MortgageType
deriving DecidableEq

/-- Deposit mode: the `depositType` radio, `'percent'` or a flat amount. -/
inductive DepositType where
  | percent : DepositType
  | amount : DepositType
deriving DecidableEq

/-- The loan configuration read from the controls in `_updateAllRatios`
(interest rate, loan term, deposit percent, deposit amount) together
with the instance state `depositType` and `mortgageType`. -/
structure LoanConfig where
  interestRate : ℚ
  loanTermYears : ℕ
  depositPercent : ℚ
  depositAmount : ℚ
  depositType : DepositType
  mortgageType : MortgageType
deriving DecidableEq

/-- `Math.pow (1+r) n` for the natural exponent used by the model. -/
def powQ (x : ℚ) : ℕ → ℚ
  | 0 => 1
  | n + 1 => powQ x n * x

/-- `_calculateMortgage(loanAmount, annualRate, termYears, type)`:
returns the pair `(payment, interest)` of monthly amounts. -/
def calculateMortgage (loanAmount annualRate : ℚ) (termYears : ℕ)
    (type : MortgageType) : ℚ × ℚ :=
  if loanAmount ≤ 0 then (0, 0)
  else
    let numPayments : ℕ := termYears * 12
    if annualRate = 0 then (loanAmount / (numPayments : ℚ), 0)
    else
      let monthlyRate := annualRate / 100 / 12
      let monthlyInterest := loanAmount * monthlyRate
      if type = MortgageType.interestOnly then (monthlyInterest, monthlyInterest)
      else
        let factor := powQ (1 + monthlyRate) numPayments
        (monthlyInterest * factor / (factor - 1), monthlyInterest)

/-- One record of `this.housingData`: the raw fields read by the engine
(`null`-or-number fields as `Option ℚ`) and the computed fields written
by the recompute pass.  `rent_vs_payment` embeds the source field
`rent_vs_payment_ratio`. -/
structure AreaData where
  postcode : String
  yearly_median_sales_price_000s : Option ℚ
  yearly_median_weekly_rent : Option ℚ
  yearly_first_quartile_sales_000s : Option ℚ
  yearly_third_quartile_sales_000s : Option ℚ
  calculated_weekly_payment : JSNum
  calculated_weekly_interest : JSNum
  rent_vs_payment : JSNum
  yearly_first_quartile_weekly_payment : JSNum
  yearly_third_quartile_weekly_payment : JSNum
deriving DecidableEq

/-- `_calculateQuartilePayments(data, deposit, rate, term, type)`:
writes the quartile weekly payments.  Note that when the third-quartile
sale price is absent or zero the source has no `else` branch, so the
third-quartile field is left untouched. -/
def calculateQuartilePayments (data : AreaData) (deposit rate : ℚ)
    (term : ℕ) (type : MortgageType) : AreaData :=
  let q1Sales := (data.yearly_first_quartile_sales_000s.getD 0) * 1000
  let data1 :=
    if q1Sales ≠ 0 then
      let q1Loan := max 0 (q1Sales - deposit)
      let q1Mortgage := calculateMortgage q1Loan rate term type
      { data with yearly_first_quartile_weekly_payment :=
          JSNum.num (q1Mortgage.1 * 12 / 52) }
    else
      { data with yearly_first_quartile_weekly_payment := JSNum.null }
  let q3Sales := (data1.yearly_third_quartile_sales_000s.getD 0) * 1000
  if q3Sales ≠ 0 then
    let q3Loan := max 0 (q3Sales - deposit)
    let q3Mortgage := calculateMortgage q3Loan rate term type
    { data1 with yearly_third_quartile_weekly_payment :=
        JSNum.num (q3Mortgage.1 * 12 / 52) }
  else data1

/-- The per-area body of the loop in `_updateAllRatios`: if the median
sale price is truthy, resolve the deposit, compute the mortgage, write
the weekly payment/interest and the ratio, then the quartile payments;
otherwise leave the record untouched. -/
def updateAreaRatios (cfg : LoanConfig) (data : AreaData) : AreaData :=
  let salesPrice := (data.yearly_median_sales_price_000s.getD 0) * 1000
  let rent := data.yearly_median_weekly_rent.getD 0
  if salesPrice ≠ 0 then
    let actualDeposit :=
      if cfg.depositType = DepositType.percent then
        salesPrice * (cfg.depositPercent / 100)
      else cfg.depositAmount
    let loanAmount := max 0 (salesPrice - actualDeposit)
    let mortgage := calculateMortgage loanAmount cfg.interestRate
        cfg.loanTermYears cfg.mortgageType
    let wp := mortgage.1 * 12 / 52
    let wi := mortgage.2 * 12 / 52
    let r : JSNum :=
      if rent = 0 then JSNum.null
      else if 0 < wp then JSNum.num (rent / wp)
      else JSNum.inf
    let data1 := { data with
      calculated_weekly_payment := JSNum.num wp
      calculated_weekly_interest := JSNum.num wi
      rent_vs_payment := r }
    calculateQuartilePayments data1 actualDeposit cfg.interestRate
      cfg.loanTermYears cfg.mortgageType
  else data

/-- `_updateAllRatios`: the recompute pass over the whole collection. -/
def updateAllRatios (cfg : LoanConfig) (l : List AreaData) : List AreaData :=
  l.map (updateAreaRatios cfg)

/-- A row of `this.sortedDataList` as built in `_prepareAndRenderTable`;
`ratioVal` embeds the source field `ratio`. -/
structure DisplayRow where
  postcode : String
  suburb : String
  ratioVal : JSNum
  rent : Option ℚ
  mortgage_payment : JSNum
deriving DecidableEq

/-- The suburb lookup (`this.suburbLookup`); the loader only stores
truthy (nonempty) names, so presence models truthiness. -/
def SuburbLookup : Type := String → Option String

/-- The filter-and-map projection of `_prepareAndRenderTable`. -/
def projectRows (lookup : SuburbLookup) (l : List AreaData) : List DisplayRow :=
  (l.filter (fun d =>
      (lookup d.postcode).isSome
        || decide (d.yearly_median_weekly_rent.getD 0 ≠ 0)
        || decide (d.yearly_median_sales_price_000s.getD 0 ≠ 0))).map
    (fun d =>
      { postcode := d.postcode
        suburb := (lookup d.postcode).getD ("Postcode " ++ d.postcode)
        ratioVal := d.rent_vs_payment
        rent := d.yearly_median_weekly_rent
        mortgage_payment := d.calculated_weekly_payment })

/-- The sort key `r.ratio ?? -1` of the default ordering: `null` and
`undefined` become `-1`, `Infinity` becomes `top`. -/
def ratioKey : JSNum → XQ
  | JSNum.undef => XQ.fin (-1)
  | JSNum.null => XQ.fin (-1)
  | JSNum.num q => XQ.fin q
  | JSNum.inf => XQ.top

/-- `_prepareAndRenderTable`: rebuild the projection and sort it by the
comparator `(b.ratio ?? -1) - (a.ratio ?? -1)`, i.e. descending by
`ratioKey`. -/
def prepareSortedRows (lookup : SuburbLookup) (l : List AreaData) :
    List DisplayRow :=
  (projectRows lookup l).mergeSort
    (fun a b => XQ.ble (ratioKey b.ratioVal) (ratioKey a.ratioVal))

/-- The sortable columns of the data table (`th[data-sort]`). -/
inductive ColKey where
  | pcCol : ColKey
  | suburbCol : ColKey
  | ratioCol : ColKey
  | rentCol : ColKey
  | paymentCol : ColKey
deriving DecidableEq

/-- A column value as seen by the `_sortColumn` comparator: `null`-like
(`null` or `undefined`), a string, or a number (`Infinity` allowed). -/
inductive CVal where
  | cnull : CVal
  | cstr : String → CVal
  | cnum : XQ → CVal
deriving DecidableEq

/-- Convert a `JSNum` field to its comparator view. -/
def jsToC : JSNum → CVal
  | JSNum.undef => CVal.cnull
  | JSNum.null => CVal.cnull
  | JSNum.num q => CVal.cnum (XQ.fin q)
  | JSNum.inf => CVal.cnum XQ.top

/-- The value of a row in a sort column.  The postcode column is
compared numerically by the source (`valA - valB` coerces the numeric
postcode strings); `pcNum` is that coercion. -/
def colVal (pcNum : String → ℚ) : ColKey → DisplayRow → CVal
  | ColKey.pcCol, r => CVal.cnum (XQ.fin (pcNum r.postcode))
  | ColKey.suburbCol, r => CVal.cstr r.suburb
  | ColKey.ratioCol, r => jsToC r.ratioVal
  | ColKey.rentCol, r =>
      match r.rent with
      | none => CVal.cnull
      | some q => CVal.cnum (XQ.fin q)
  | ColKey.paymentCol, r => jsToC r.mortgage_payment

/-- Sign of the JS numeric comparison `valA - valB` on possibly
infinite values; `Infinity - Infinity` is `NaN`, which a JS sort
treats as 0. -/
def numCmpI : XQ → XQ → Int
  | XQ.top, XQ.top => 0
  | XQ.top, XQ.fin _ => 1
  | XQ.fin _, XQ.top => -1
  | XQ.fin a, XQ.fin b => if a < b then -1 else if b < a then 1 else 0

/-- The defined-values comparator of `_sortColumn`: the suburb column
uses `localeCompare` (the parameter `lc`), every other column the
numeric difference, and the direction sign multiplies the result. -/
def cmpVals (lc : String → String → Int) (dir : Int) : CVal → CVal → Int
  | CVal.cstr a, CVal.cstr b => lc a b * dir
  | CVal.cnum a, CVal.cnum b => numCmpI a b * dir
  | _, _ => 0

/-- The `_sortColumn` comparator as a "may precede" relation: a row
with a `null`/`undefined` value never precedes a defined one (the
source returns 1 or -1 before applying the direction), `null`/`null`
pairs are ties, and defined pairs follow `cmpVals`. -/
def sortRel (lc : String → String → Int) (pcNum : String → ℚ)
    (key : ColKey) (dir : Int) (a b : DisplayRow) : Bool :=
  match colVal pcNum key a, colVal pcNum key b with
  | _, CVal.cnull => true
  | CVal.cnull, _ => false
  | va, vb => decide (cmpVals lc dir va vb ≤ 0)

/-- `_sortColumn`: re-sort the row list by the requested column; when
the column header is currently ascending (`isAsc`) the direction is
`-1`, otherwise `1`. -/
def sortColumn (lc : String → String → Int) (pcNum : String → ℚ)
    (key : ColKey) (isAsc : Bool) (l : List DisplayRow) : List DisplayRow :=
  l.mergeSort (sortRel lc pcNum key (if isAsc then -1 else 1))

/-- Contiguous-sublist test on character lists (JS
`String.prototype.includes`). -/
def hasSubList (sub : List Char) : List Char → Bool
  | [] => sub.isEmpty
  | c :: t => sub.isPrefixOf (c :: t) || hasSubList sub t

/-- `s.includes(sub)` on strings. -/
def jsIncludes (s sub : String) : Bool := hasSubList sub.toList s.toList

/-- JS `String.prototype.toLowerCase`, as a character-wise map. -/
def jsToLower (s : String) : String := String.mk (s.data.map Char.toLower)

/-- JS `String.prototype.trim`: drop whitespace from both ends. -/
def jsTrimStr (s : String) : String :=
  String.mk
    (((s.data.dropWhile Char.isWhitespace).reverse.dropWhile
        Char.isWhitespace).reverse)

/-- `_filterTable(query)`: keep the rows whose postcode contains the
lowercased-and-trimmed query, or whose suburb label contains it after
lowercasing the label. -/
def filterTable (query : String) (l : List DisplayRow) : List DisplayRow :=
  let lowerQuery := jsTrimStr (jsToLower query)
  l.filter (fun item =>
    jsIncludes item.postcode lowerQuery
      || jsIncludes (jsToLower item.suburb) lowerQuery)

/-- `powQ` is the monoid power on ℚ. -/
theorem powQ_eq_pow (x : ℚ) : ∀ n : ℕ, powQ x n = x ^ n
  | 0 => by simp [powQ]
  | n + 1 => by rw [powQ, powQ_eq_pow x n, pow_succ]

/-- The median sale price as used by the engine (`(raw || 0) * 1000`). -/
def medianSP (d : AreaData) : ℚ := d.yearly_median_sales_price_000s.getD 0 * 1000

/-- The first-quartile sale price (`(raw || 0) * 1000`). -/
def q1SP (d : AreaData) : ℚ := d.yearly_first_quartile_sales_000s.getD 0 * 1000

/-- The third-quartile sale price (`(raw || 0) * 1000`). -/
def q3SP (d : AreaData) : ℚ := d.yearly_third_quartile_sales_000s.getD 0 * 1000

/-- The median weekly rent with `null`/`undefined` read as 0 (JS
falsiness of `rent`). -/
def rentV (d : AreaData) : ℚ := d.yearly_median_weekly_rent.getD 0

/-- The effective deposit of `_updateAllRatios` for a given sale
price. -/
def effDeposit (cfg : LoanConfig) (salePrice : ℚ) : ℚ :=
  if cfg.depositType = DepositType.percent then
    salePrice * (cfg.depositPercent / 100)
  else cfg.depositAmount

/-- Weekly payment for a loan amount under a configuration
(`payment * 12 / 52`). -/
def weeklyPay (cfg : LoanConfig) (loan : ℚ) : ℚ :=
  (calculateMortgage loan cfg.interestRate cfg.loanTermYears cfg.mortgageType).1 * 12 / 52

/-- Weekly interest for a loan amount under a configuration
(`interest * 12 / 52`). -/
def weeklyInt (cfg : LoanConfig) (loan : ℚ) : ℚ :=
  (calculateMortgage loan cfg.interestRate cfg.loanTermYears cfg.mortgageType).2 * 12 / 52

/-- The clamped median loan amount. -/
def medianLoan (cfg : LoanConfig) (d : AreaData) : ℚ :=
  max 0 (medianSP d - effDeposit cfg (medianSP d))

/-- Closed-form description of one pass of `updateAreaRatios`: which
fields are written and with which values.  Note the deposit of both
quartile computations is the one derived from the median sale price,
and the third-quartile field is untouched when its source quartile is
falsy. -/
theorem updateAreaRatios_spec (cfg : LoanConfig) (d : AreaData) :
    updateAreaRatios cfg d =
      if medianSP d ≠ 0 then
        { d with
          calculated_weekly_payment := JSNum.num (weeklyPay cfg (medianLoan cfg d))
          calculated_weekly_interest := JSNum.num (weeklyInt cfg (medianLoan cfg d))
          rent_vs_payment :=
            if rentV d = 0 then JSNum.null
            else if 0 < weeklyPay cfg (medianLoan cfg d) then
              JSNum.num (rentV d / weeklyPay cfg (medianLoan cfg d))
            else JSNum.inf
          yearly_first_quartile_weekly_payment :=
            if q1SP d ≠ 0 then
              JSNum.num (weeklyPay cfg (max 0 (q1SP d - effDeposit cfg (medianSP d))))
            else JSNum.null
          yearly_third_quartile_weekly_payment :=
            if q3SP d ≠ 0 then
              JSNum.num (weeklyPay cfg (max 0 (q3SP d - effDeposit cfg (medianSP d))))
            else d.yearly_third_quartile_weekly_payment }
      else d := by
  simp only [updateAreaRatios, calculateQuartilePayments, medianSP, q1SP, q3SP, rentV,
    effDeposit, weeklyPay, weeklyInt, medianLoan]
  split_ifs <;> rfl

/-- Claim C10: for every loan amount ≤ 0 (including strictly negative
ones) the mortgage computation is total and returns payment 0 and
interest 0, for every rate, term and repayment type, without reaching
the division or the amortization formula. -/
theorem claim_C10_nonpositive_loan_total_zero (loanAmount annualRate : ℚ)
    (termYears : ℕ) (type : MortgageType) (h : loanAmount ≤ 0) :
    calculateMortgage loanAmount annualRate termYears type = (0, 0) := by
  simp [calculateMortgage, h]

/-- Witness for C10 at loan −5, rate 7, term 0, interest-only. -/
theorem claim_C10_nonpositive_loan_total_zero_witness :
    (-5 : ℚ) ≤ 0 ∧ calculateMortgage (-5) 7 0 MortgageType.interestOnly = (0, 0) :=
  ⟨by norm_num,
   claim_C10_nonpositive_loan_total_zero (-5) 7 0 MortgageType.interestOnly (by norm_num)⟩

/-- Claim C5: for a principal-and-interest computation with positive
rate, positive loan and more than one payment, the interest component
equals the first-period monthly interest and the payment strictly
exceeds it. -/
theorem claim_C5_pi_payment_exceeds_interest (loanAmount annualRate : ℚ)
    (termYears : ℕ) (hr : 0 < annualRate) (hl : 0 < loanAmount)
    (hn : 1 < termYears * 12) :
    (calculateMortgage loanAmount annualRate termYears
        MortgageType.principalAndInterest).2
      = loanAmount * (annualRate / 100 / 12) ∧
    (calculateMortgage loanAmount annualRate termYears
        MortgageType.principalAndInterest).2
      < (calculateMortgage loanAmount annualRate termYears
        MortgageType.principalAndInterest).1 := by
  have hl' : ¬ loanAmount ≤ 0 := not_le.mpr hl
  have hr' : annualRate ≠ 0 := ne_of_gt hr
  have hty : MortgageType.principalAndInterest ≠ MortgageType.interestOnly := by
    intro h
    exact MortgageType.noConfusion h
  simp only [calculateMortgage, if_neg hl', if_neg hr', if_neg hty]
  refine ⟨trivial, ?_⟩
  have hmr : 0 < annualRate / 100 / 12 := by positivity
  have hf : 1 < powQ (1 + annualRate / 100 / 12) (termYears * 12) := by
    rw [powQ_eq_pow]
    exact one_lt_pow₀ (by linarith) (by omega)
  have hI : 0 < loanAmount * (annualRate / 100 / 12) := mul_pos hl hmr
  have hf1 : (0 : ℚ) < powQ (1 + annualRate / 100 / 12) (termYears * 12) - 1 := by
    linarith
  rw [lt_div_iff₀ hf1]
  exact mul_lt_mul_of_pos_left (by linarith) hI

/-- Witness for C5 at loan 1000, rate 6, term 1 year (12 payments). -/
theorem claim_C5_pi_payment_exceeds_interest_witness :
    (calculateMortgage 1000 6 1 MortgageType.principalAndInterest).2
      = 1000 * ((6 : ℚ) / 100 / 12) ∧
    (calculateMortgage 1000 6 1 MortgageType.principalAndInterest).2
      < (calculateMortgage 1000 6 1 MortgageType.principalAndInterest).1 :=
  claim_C5_pi_payment_exceeds_interest 1000 6 1 (by norm_num) (by norm_num)
    (by norm_num)

/-- Claim C6: an area whose median sale price is absent or zero is
skipped entirely by the recompute pass: the whole record, computed
fields included, is left untouched, even when rent is present. -/
theorem claim_C6_skip_area_without_sale_price (cfg : LoanConfig)
    (d : AreaData) (h : medianSP d = 0) : updateAreaRatios cfg d = d := by
  rw [updateAreaRatios_spec, if_neg (not_not_intro h)]

/-- Witness for C6: an area with no sale price but with rent present is
returned unchanged. -/
theorem claim_C6_skip_area_without_sale_price_witness :
    medianSP ⟨"2000", none, some 500, none, none, JSNum.undef, JSNum.undef,
        JSNum.undef, JSNum.undef, JSNum.undef⟩ = 0 ∧
    updateAreaRatios ⟨6, 30, 20, 0, DepositType.percent,
        MortgageType.principalAndInterest⟩
      ⟨"2000", none, some 500, none, none, JSNum.undef, JSNum.undef,
        JSNum.undef, JSNum.undef, JSNum.undef⟩
      = ⟨"2000", none, some 500, none, none, JSNum.undef, JSNum.undef,
        JSNum.undef, JSNum.undef, JSNum.undef⟩ :=
  ⟨by simp [medianSP],
   claim_C6_skip_area_without_sale_price _ _ (by simp [medianSP])⟩

/-- Claim C3: for an area with truthy median sale price, the pass
writes some finite weekly payment `wp`, and the ratio follows exactly
the case split: falsy rent gives `null`, positive `wp` gives
`rent / wp`, and otherwise the ratio is `Infinity`. -/
theorem claim_C3_ratio_case_split (cfg : LoanConfig) (d : AreaData)
    (h : medianSP d ≠ 0) :
    ∃ wp : ℚ, (updateAreaRatios cfg d).calculated_weekly_payment = JSNum.num wp ∧
      (updateAreaRatios cfg d).rent_vs_payment =
        (if rentV d = 0 then JSNum.null
         else if 0 < wp then JSNum.num (rentV d / wp) else JSNum.inf) := by
  rw [updateAreaRatios_spec, if_pos h]
  exact ⟨weeklyPay cfg (medianLoan cfg d), rfl, rfl⟩

/-- Witness for C3 at a concrete area with sale price 700×1000 and
rent 300. -/
theorem claim_C3_ratio_case_split_witness :
    ∃ wp : ℚ,
      (updateAreaRatios ⟨0, 1, 0, 0, DepositType.amount,
          MortgageType.principalAndInterest⟩
        ⟨"2000", some 700, some 300, none, none, JSNum.undef, JSNum.undef,
          JSNum.undef, JSNum.undef, JSNum.undef⟩).calculated_weekly_payment
        = JSNum.num wp ∧
      (updateAreaRatios ⟨0, 1, 0, 0, DepositType.amount,
          MortgageType.principalAndInterest⟩
        ⟨"2000", some 700, some 300, none, none, JSNum.undef, JSNum.undef,
          JSNum.undef, JSNum.undef, JSNum.undef⟩).rent_vs_payment =
        (if rentV ⟨"2000", some 700, some 300, none, none, JSNum.undef,
            JSNum.undef, JSNum.undef, JSNum.undef, JSNum.undef⟩ = 0 then
          JSNum.null
         else if 0 < wp then
          JSNum.num (rentV ⟨"2000", some 700, some 300, none, none, JSNum.undef,
            JSNum.undef, JSNum.undef, JSNum.undef, JSNum.undef⟩ / wp)
         else JSNum.inf) :=
  claim_C3_ratio_case_split _ _ (by norm_num [medianSP])

/-- Counterexample to C4: at loan 500000, rate 6, term 30,
principal-and-interest, the weekly payment obtained by the
`monthly × 12/52` conversion lies strictly between 691.7 and 691.8, so
it is not approximately 691.02 as claimed (it is ≈ 691.789). -/
theorem claim_C4_counterexample :
    (6917 / 10 : ℚ) <
      (calculateMortgage 500000 6 30 MortgageType.principalAndInterest).1 * 12 / 52 ∧
    (calculateMortgage 500000 6 30 MortgageType.principalAndInterest).1 * 12 / 52
      < 6918 / 10 := by
  have hty : MortgageType.principalAndInterest ≠ MortgageType.interestOnly := by
    intro h
    exact MortgageType.noConfusion h
  norm_num [calculateMortgage, powQ_eq_pow, if_neg hty]

/-- Amended C4: at loan 500000, rate 6, term 30,
principal-and-interest, the interest component is 500000 × (1/200)
(monthly rate exactly 0.005), the monthly payment is within 0.01 of
2997.75, and the weekly payment via `monthly × 12/52` is within 0.01
of 691.79. -/
theorem claim_C4_amended :
    (calculateMortgage 500000 6 30 MortgageType.principalAndInterest).2
      = 500000 * (1 / 200) ∧
    |(calculateMortgage 500000 6 30 MortgageType.principalAndInterest).1
      - 299775 / 100| < 1 / 100 ∧
    |(calculateMortgage 500000 6 30 MortgageType.principalAndInterest).1 * 12 / 52
      - 69179 / 100| < 1 / 100 := by
  have hty : MortgageType.principalAndInterest ≠ MortgageType.interestOnly := by
    intro h
    exact MortgageType.noConfusion h
  norm_num [calculateMortgage, powQ_eq_pow, abs_lt, if_neg hty]

/-- A percent-deposit configuration: rate 6, term 30, deposit 20%,
principal-and-interest. -/
def pctCfg : LoanConfig :=
  ⟨6, 30, 20, 0, DepositType.percent, MortgageType.principalAndInterest⟩

/-- An area with median sale price 1000×1000, first-quartile sale price
500×1000, no rent, no third quartile, computed fields unset. -/
def q1Area : AreaData :=
  ⟨"2000", some 1000, none, some 500, none, JSNum.undef, JSNum.undef,
    JSNum.undef, JSNum.undef, JSNum.undef⟩

/-- Counterexample to C1: with a 20% deposit, median price 1000000 and
first-quartile price 500000, the recompute pass prices the
first-quartile loan at `500000 - 1000000×20% = 300000` (the deposit is
derived from the MEDIAN sale price), whereas the claimed derivation
`max(0, 500000 - 500000×20%) = 400000` yields a different weekly
payment. -/
theorem claim_C1_counterexample :
    (updateAreaRatios pctCfg q1Area).yearly_first_quartile_weekly_payment
      = JSNum.num (weeklyPay pctCfg 300000) ∧
    weeklyPay pctCfg 300000
      ≠ weeklyPay pctCfg (max 0 (500000 - 500000 * (20 / 100))) := by
  constructor
  · rw [updateAreaRatios_spec]
    norm_num [medianSP, q1SP, q3SP, rentV, effDeposit, medianLoan, pctCfg, q1Area]
  · have hty : MortgageType.principalAndInterest ≠ MortgageType.interestOnly := by
      intro h
      exact MortgageType.noConfusion h
    norm_num [weeklyPay, calculateMortgage, pctCfg, powQ_eq_pow, if_neg hty]

/-- Amended C1: each quartile weekly payment repeats the mortgage steps
with the quartile sale price, but the effective deposit is still the
one derived from the MEDIAN sale price (in percent mode
`medianSalePrice × depositPercent/100`); the loan is
`max(0, quartileSalePrice − that deposit)`.  The first-quartile payment
is `null` when its source quartile is absent or zero; the
third-quartile payment is then left unwritten (it keeps its previous
value, which is unset at load time). -/
theorem claim_C1_amended (cfg : LoanConfig) (d : AreaData)
    (h : medianSP d ≠ 0) :
    (updateAreaRatios cfg d).yearly_first_quartile_weekly_payment
      = (if q1SP d ≠ 0 then
          JSNum.num (weeklyPay cfg (max 0 (q1SP d - effDeposit cfg (medianSP d))))
         else JSNum.null) ∧
    (updateAreaRatios cfg d).yearly_third_quartile_weekly_payment
      = (if q3SP d ≠ 0 then
          JSNum.num (weeklyPay cfg (max 0 (q3SP d - effDeposit cfg (medianSP d))))
         else d.yearly_third_quartile_weekly_payment) := by
  rw [updateAreaRatios_spec, if_pos h]
  exact ⟨rfl, rfl⟩

/-- Witness for the amended C1 at the concrete 20%-deposit example. -/
theorem claim_C1_amended_witness :
    (updateAreaRatios pctCfg q1Area).yearly_first_quartile_weekly_payment
      = (if q1SP q1Area ≠ 0 then
          JSNum.num (weeklyPay pctCfg
            (max 0 (q1SP q1Area - effDeposit pctCfg (medianSP q1Area))))
         else JSNum.null) ∧
    (updateAreaRatios pctCfg q1Area).yearly_third_quartile_weekly_payment
      = (if q3SP q1Area ≠ 0 then
          JSNum.num (weeklyPay pctCfg
            (max 0 (q3SP q1Area - effDeposit pctCfg (medianSP q1Area))))
         else q1Area.yearly_third_quartile_weekly_payment) :=
  claim_C1_amended pctCfg q1Area (by norm_num [medianSP, q1Area])

/-- A flat-deposit, zero-rate, one-year configuration. -/
def flatCfg : LoanConfig :=
  ⟨0, 1, 0, 0, DepositType.amount, MortgageType.principalAndInterest⟩

/-- An area with median price 100×1000, no quartiles, whose
third-quartile computed field holds a stale value 42. -/
def staleArea : AreaData :=
  ⟨"2001", some 100, none, none, none, JSNum.undef, JSNum.undef,
    JSNum.undef, JSNum.undef, JSNum.num 42⟩

/-- The same record with the third-quartile computed field unset. -/
def freshArea : AreaData :=
  ⟨"2001", some 100, none, none, none, JSNum.undef, JSNum.undef,
    JSNum.undef, JSNum.undef, JSNum.undef⟩

/-- Counterexample to C2: two records with identical raw fields and
configuration but different prior computed state produce different
outputs — when the third-quartile sale price is absent, the pass does
not overwrite the third-quartile payment, so the stale value 42
survives in one output and not in the other. -/
theorem claim_C2_counterexample :
    staleArea.yearly_median_sales_price_000s
        = freshArea.yearly_median_sales_price_000s ∧
    staleArea.yearly_median_weekly_rent = freshArea.yearly_median_weekly_rent ∧
    staleArea.yearly_first_quartile_sales_000s
        = freshArea.yearly_first_quartile_sales_000s ∧
    staleArea.yearly_third_quartile_sales_000s
        = freshArea.yearly_third_quartile_sales_000s ∧
    updateAreaRatios flatCfg staleArea ≠ updateAreaRatios flatCfg freshArea := by
  refine ⟨rfl, rfl, rfl, rfl, ?_⟩
  intro h
  have h3 := congrArg AreaData.yearly_third_quartile_weekly_payment h
  rw [updateAreaRatios_spec, updateAreaRatios_spec] at h3
  norm_num [medianSP, q3SP, staleArea, freshArea] at h3
  exact JSNum.noConfusion h3

/-- Amended C2: recomputation is idempotent, and the computed fields
that the pass actually writes are a pure function of the raw fields
and the configuration: for an area with truthy median sale price, the
weekly payment, weekly interest, ratio and first-quartile payment are
fully overwritten and agree between any two records with identical raw
fields; the third-quartile payment agrees whenever its source quartile
is truthy (when it is falsy the field retains its prior value, and an
area with falsy median sale price retains all prior computed
fields). -/
theorem claim_C2_amended :
    (∀ cfg d,
      updateAreaRatios cfg (updateAreaRatios cfg d) = updateAreaRatios cfg d) ∧
    (∀ cfg d1 d2,
      d1.yearly_median_sales_price_000s = d2.yearly_median_sales_price_000s →
      d1.yearly_median_weekly_rent = d2.yearly_median_weekly_rent →
      d1.yearly_first_quartile_sales_000s = d2.yearly_first_quartile_sales_000s →
      d1.yearly_third_quartile_sales_000s = d2.yearly_third_quartile_sales_000s →
      medianSP d1 ≠ 0 →
      (updateAreaRatios cfg d1).calculated_weekly_payment
          = (updateAreaRatios cfg d2).calculated_weekly_payment ∧
      (updateAreaRatios cfg d1).calculated_weekly_interest
          = (updateAreaRatios cfg d2).calculated_weekly_interest ∧
      (updateAreaRatios cfg d1).rent_vs_payment
          = (updateAreaRatios cfg d2).rent_vs_payment ∧
      (updateAreaRatios cfg d1).yearly_first_quartile_weekly_payment
          = (updateAreaRatios cfg d2).yearly_first_quartile_weekly_payment ∧
      (q3SP d1 ≠ 0 →
        (updateAreaRatios cfg d1).yearly_third_quartile_weekly_payment
          = (updateAreaRatios cfg d2).yearly_third_quartile_weekly_payment)) := by
  constructor
  · intro cfg d
    by_cases h : medianSP d = 0
    · have hd : updateAreaRatios cfg d = d := by
        rw [updateAreaRatios_spec, if_neg (not_not_intro h)]
      rw [hd]
      exact hd
    · have hu := updateAreaRatios_spec cfg d
      rw [if_pos h] at hu
      rw [hu, updateAreaRatios_spec, if_pos (by simpa [medianSP] using h)]
      simp [medianSP, rentV, q1SP, q3SP, medianLoan]
      intro hne
      rw [if_neg hne]
  · intro cfg d1 d2 h1 h2 h3 h4 hm
    have e1 : medianSP d2 = medianSP d1 := by simp [medianSP, h1]
    have e2 : rentV d2 = rentV d1 := by simp [rentV, h2]
    have e3 : q1SP d2 = q1SP d1 := by simp [q1SP, h3]
    have e4 : q3SP d2 = q3SP d1 := by simp [q3SP, h4]
    have hm2 : medianSP d2 ≠ 0 := by rw [e1]; exact hm
    rw [updateAreaRatios_spec, updateAreaRatios_spec, if_pos hm, if_pos hm2]
    refine ⟨?_, ?_, ?_, ?_, ?_⟩ <;>
      simp [medianLoan, e1, e2, e3, e4]
    intro hq3
    simp [hq3]

/-- Witness for the amended C2: idempotence at the flat-deposit
configuration and purity of the written fields on the stale/fresh
record pair. -/
theorem claim_C2_amended_witness :
    (updateAreaRatios flatCfg (updateAreaRatios flatCfg staleArea)
        = updateAreaRatios flatCfg staleArea) ∧
    ((updateAreaRatios flatCfg staleArea).calculated_weekly_payment
        = (updateAreaRatios flatCfg freshArea).calculated_weekly_payment ∧
      (updateAreaRatios flatCfg staleArea).calculated_weekly_interest
        = (updateAreaRatios flatCfg freshArea).calculated_weekly_interest ∧
      (updateAreaRatios flatCfg staleArea).rent_vs_payment
        = (updateAreaRatios flatCfg freshArea).rent_vs_payment ∧
      (updateAreaRatios flatCfg staleArea).yearly_first_quartile_weekly_payment
        = (updateAreaRatios flatCfg freshArea).yearly_first_quartile_weekly_payment ∧
      (q3SP staleArea ≠ 0 →
        (updateAreaRatios flatCfg staleArea).yearly_third_quartile_weekly_payment
          = (updateAreaRatios flatCfg freshArea).yearly_third_quartile_weekly_payment)) :=
  ⟨claim_C2_amended.1 flatCfg staleArea,
   claim_C2_amended.2 flatCfg staleArea freshArea rfl rfl rfl rfl
     (by norm_num [medianSP, staleArea])⟩

/-- `ble` on `XQ` is total. -/
theorem XQ.ble_total (a b : XQ) : (XQ.ble a b || XQ.ble b a) = true := by
  cases a <;> cases b <;> simp [XQ.ble, le_total]

/-- `ble` on `XQ` is total, as a disjunction. -/
theorem XQ.ble_total_or (a b : XQ) : XQ.ble a b = true ∨ XQ.ble b a = true := by
  cases a <;> cases b <;> simp [XQ.ble, le_total]

/-- `ble` on `XQ` is transitive. -/
theorem XQ.ble_trans : ∀ a b c : XQ, XQ.ble a b = true → XQ.ble b c = true →
    XQ.ble a c = true := by
  intro a b c hab hbc
  cases a <;> cases b <;> cases c <;> simp_all [XQ.ble]
  linarith

/-- `null`-likeness of a JS value (`undefined` or `null`). -/
def jsNullish : JSNum → Bool
  | JSNum.undef => true
  | JSNum.null => true
  | JSNum.num _ => false
  | JSNum.inf => false

/-- The defined value of a JS field, `Infinity` included. -/
def jsDefVal : JSNum → Option XQ
  | JSNum.undef => none
  | JSNum.null => none
  | JSNum.num q => some (XQ.fin q)
  | JSNum.inf => some XQ.top

/-- Claim C7: after the projection is rebuilt and sorted, the row
sequence is descending by ratio with `null`/`undefined` ratios keyed as
−1: a row with an undefined ratio is never followed by a row with a
defined non-negative ratio, among defined ratios a larger one never
comes after a smaller one, and the sequence is a permutation of the
projection. -/
theorem claim_C7_default_order (lookup : SuburbLookup) (l : List AreaData) :
    (prepareSortedRows lookup l).Pairwise (fun a b =>
      (jsNullish a.ratioVal = true →
        ∀ x, jsDefVal b.ratioVal = some x → XQ.ble (XQ.fin 0) x = false) ∧
      (∀ x y, jsDefVal a.ratioVal = some x → jsDefVal b.ratioVal = some y →
        XQ.ble y x = true)) ∧
    (prepareSortedRows lookup l).Perm (projectRows lookup l) := by
  constructor
  · have hs := @List.sorted_mergeSort DisplayRow
      (fun a b => XQ.ble (ratioKey b.ratioVal) (ratioKey a.ratioVal))
      (fun a b c hab hbc => XQ.ble_trans _ _ _ hbc hab)
      (fun a b => XQ.ble_total (ratioKey b.ratioVal) (ratioKey a.ratioVal))
      (projectRows lookup l)
    refine List.Pairwise.imp ?_ hs
    intro a b h
    constructor
    · intro hnull x hdef
      have ka : ratioKey a.ratioVal = XQ.fin (-1) := by
        cases ha : a.ratioVal <;> simp_all [jsNullish, ratioKey]
      have kb : ratioKey b.ratioVal = x := by
        cases hb : b.ratioVal <;> simp_all [jsDefVal, ratioKey]
      rw [ka, kb] at h
      cases x with
      | top => simp [XQ.ble] at h
      | fin q =>
        simp only [XQ.ble, decide_eq_true_eq] at h
        simp only [XQ.ble, decide_eq_false_iff_not]
        intro h0
        linarith
    · intro x y hdx hdy
      have ka : ratioKey a.ratioVal = x := by
        cases ha : a.ratioVal <;> simp_all [jsDefVal, ratioKey]
      have kb : ratioKey b.ratioVal = y := by
        cases hb : b.ratioVal <;> simp_all [jsDefVal, ratioKey]
      rw [ka, kb] at h
      exact h
  · exact List.mergeSort_perm (projectRows lookup l) _

/-- The JS numeric comparison is nonpositive exactly when the first
value is ≤ the second. -/
theorem numCmpI_nonpos_iff (a b : XQ) : numCmpI a b ≤ 0 ↔ XQ.ble a b = true := by
  cases a with
  | top =>
    cases b with
    | top => norm_num [numCmpI, XQ.ble]
    | fin q => norm_num [numCmpI, XQ.ble]
  | fin p =>
    cases b with
    | top => norm_num [numCmpI, XQ.ble]
    | fin q =>
      simp only [numCmpI, XQ.ble, decide_eq_true_eq]
      split_ifs with h1 h2
      · exact iff_of_true (by norm_num) (le_of_lt h1)
      · exact iff_of_false (by norm_num) (not_le.mpr h2)
      · exact iff_of_true le_rfl (le_of_not_lt h2)

/-- The JS numeric comparison is nonnegative exactly when the second
value is ≤ the first. -/
theorem numCmpI_nonneg_iff (a b : XQ) : 0 ≤ numCmpI a b ↔ XQ.ble b a = true := by
  cases a with
  | top =>
    cases b with
    | top => norm_num [numCmpI, XQ.ble]
    | fin q => norm_num [numCmpI, XQ.ble]
  | fin p =>
    cases b with
    | top => norm_num [numCmpI, XQ.ble]
    | fin q =>
      simp only [numCmpI, XQ.ble, decide_eq_true_eq]
      split_ifs with h1 h2
      · exact iff_of_false (by norm_num) (not_le.mpr h1)
      · exact iff_of_true (by norm_num) (le_of_lt h2)
      · exact iff_of_true le_rfl (le_of_not_lt h1)

/-- The suburb column always yields a string value. -/
theorem colVal_suburb (pcNum : String → ℚ) (r : DisplayRow) :
    colVal pcNum ColKey.suburbCol r = CVal.cstr r.suburb := rfl

/-- Every column other than the suburb column never yields a string
value. -/
theorem colVal_no_cstr (pcNum : String → ℚ) :
    ∀ key : ColKey, key ≠ ColKey.suburbCol →
      ∀ (r : DisplayRow) (s : String), colVal pcNum key r ≠ CVal.cstr s := by
  intro key hk r s h
  cases key with
  | pcCol => simp [colVal] at h
  | suburbCol => exact hk rfl
  | ratioCol => cases hv : r.ratioVal <;> simp [colVal, jsToC, hv] at h
  | rentCol => cases hv : r.rent <;> simp [colVal, hv] at h
  | paymentCol => cases hv : r.mortgage_payment <;> simp [colVal, jsToC, hv] at h

/-- A sort column never mixes string and numeric values. -/
theorem colVal_mixed_absurd (pcNum : String → ℚ) (key : ColKey)
    {r r' : DisplayRow} {s : String} {x : XQ}
    (h1 : colVal pcNum key r = CVal.cstr s)
    (h2 : colVal pcNum key r' = CVal.cnum x) : False := by
  by_cases hk : key = ColKey.suburbCol
  · subst hk
    rw [colVal_suburb] at h2
    exact CVal.noConfusion h2
  · exact colVal_no_cstr pcNum key hk r s h1

/-- Totality of the `_sortColumn` comparison relation, given that
`localeCompare` is sign-symmetric. -/
theorem sortRel_total (lc : String → String → Int) (pcNum : String → ℚ)
    (key : ColKey) (dir : Int)
    (hAnti : ∀ a b, lc a b ≤ 0 ↔ 0 ≤ lc b a) (hdir : dir = 1 ∨ dir = -1) :
    ∀ a b, (sortRel lc pcNum key dir a b || sortRel lc pcNum key dir b a) = true := by
  intro a b
  rw [Bool.or_eq_true]
  unfold sortRel
  rcases hva : colVal pcNum key a with _ | sa | xa <;>
    rcases hvb : colVal pcNum key b with _ | sb | xb
  · left; rfl
  · right; rfl
  · right; rfl
  · left; rfl
  · simp only [decide_eq_true_eq, cmpVals]
    rcases hdir with h | h <;> subst h
    · by_cases hc : lc sa sb ≤ 0
      · left; linarith
      · right
        have h0 : 0 ≤ lc sa sb := le_of_lt (not_le.mp hc)
        have h1 := (hAnti sb sa).mpr h0
        linarith
    · by_cases hc : 0 ≤ lc sa sb
      · left; linarith
      · right
        have h0 : lc sa sb ≤ 0 := le_of_lt (not_le.mp hc)
        have h1 := (hAnti sa sb).mp h0
        linarith
  · exact (colVal_mixed_absurd pcNum key hva hvb).elim
  · left; rfl
  · exact (colVal_mixed_absurd pcNum key hvb hva).elim
  · simp only [decide_eq_true_eq, cmpVals]
    rcases hdir with h | h <;> subst h
    · rcases XQ.ble_total_or xa xb with hb | hb
      · left
        have h1 := (numCmpI_nonpos_iff xa xb).mpr hb
        linarith
      · right
        have h1 := (numCmpI_nonpos_iff xb xa).mpr hb
        linarith
    · rcases XQ.ble_total_or xa xb with hb | hb
      · right
        have h1 := (numCmpI_nonneg_iff xb xa).mpr hb
        linarith
      · left
        have h1 := (numCmpI_nonneg_iff xa xb).mpr hb
        linarith

/-- Transitivity of the `_sortColumn` comparison relation, given that
`localeCompare` is transitive and sign-symmetric. -/
theorem sortRel_trans (lc : String → String → Int) (pcNum : String → ℚ)
    (key : ColKey) (dir : Int)
    (hTrans : ∀ a b c, lc a b ≤ 0 → lc b c ≤ 0 → lc a c ≤ 0)
    (hAnti : ∀ a b, lc a b ≤ 0 ↔ 0 ≤ lc b a) (hdir : dir = 1 ∨ dir = -1) :
    ∀ a b c, sortRel lc pcNum key dir a b = true →
      sortRel lc pcNum key dir b c = true →
      sortRel lc pcNum key dir a c = true := by
  intro a b c hab hbc
  unfold sortRel at hab hbc ⊢
  rcases hva : colVal pcNum key a with _ | sa | xa <;>
    rcases hvb : colVal pcNum key b with _ | sb | xb <;>
      rcases hvc : colVal pcNum key c with _ | sc | xc <;>
        rw [hva, hvb] at hab <;> rw [hvb, hvc] at hbc
  all_goals try rfl
  all_goals try exact (colVal_mixed_absurd pcNum key hva hvb).elim
  all_goals try exact (colVal_mixed_absurd pcNum key hvb hva).elim
  all_goals try exact (colVal_mixed_absurd pcNum key hvb hvc).elim
  all_goals try exact (colVal_mixed_absurd pcNum key hvc hvb).elim
  all_goals simp only [cmpVals, decide_eq_true_eq, Bool.false_eq_true] at hab hbc ⊢
  all_goals rcases hdir with h | h <;> subst h
  all_goals first
  | (have h1 := hTrans sa sb sc (by linarith) (by linarith)
     linarith)
  | (have h1 := (hAnti sb sa).mpr (by linarith : (0 : Int) ≤ lc sa sb)
     have h2 := (hAnti sc sb).mpr (by linarith : (0 : Int) ≤ lc sb sc)
     have h3 := (hAnti sc sa).mp (hTrans sc sb sa h2 h1)
     linarith)
  | (have h1 := XQ.ble_trans xa xb xc
       ((numCmpI_nonpos_iff xa xb).mp (by linarith))
       ((numCmpI_nonpos_iff xb xc).mp (by linarith))
     have h2 := (numCmpI_nonpos_iff xa xc).mpr h1
     linarith)
  | (have h1 := XQ.ble_trans xc xb xa
       ((numCmpI_nonneg_iff xb xc).mp (by linarith))
       ((numCmpI_nonneg_iff xa xb).mp (by linarith))
     have h2 := (numCmpI_nonneg_iff xa xc).mpr h1
     linarith)

/-- Claim C8: for every column and both directions, a user-triggered
sort places every row whose column value is `null`/`undefined` after
every row with a defined value, and orders defined values by the
direction-signed comparator — `localeCompare` (here the abstract
sign-symmetric transitive `lc`) for the string column, the sign of the
numeric difference for the numeric columns; the output is a
permutation of the input. -/
theorem claim_C8_column_sort (lc : String → String → Int) (pcNum : String → ℚ)
    (key : ColKey) (isAsc : Bool) (l : List DisplayRow)
    (hTrans : ∀ a b c, lc a b ≤ 0 → lc b c ≤ 0 → lc a c ≤ 0)
    (hAnti : ∀ a b, lc a b ≤ 0 ↔ 0 ≤ lc b a) :
    (sortColumn lc pcNum key isAsc l).Pairwise (fun a b =>
      (colVal pcNum key a = CVal.cnull → colVal pcNum key b = CVal.cnull) ∧
      (colVal pcNum key a ≠ CVal.cnull → colVal pcNum key b ≠ CVal.cnull →
        cmpVals lc (if isAsc then -1 else 1) (colVal pcNum key a)
          (colVal pcNum key b) ≤ 0)) ∧
    (sortColumn lc pcNum key isAsc l).Perm l := by
  have hdir : (if isAsc then (-1 : Int) else 1) = 1 ∨
      (if isAsc then (-1 : Int) else 1) = -1 := by
    cases isAsc <;> simp
  unfold sortColumn
  constructor
  · have hs := @List.sorted_mergeSort DisplayRow
      (sortRel lc pcNum key (if isAsc then -1 else 1))
      (sortRel_trans lc pcNum key _ hTrans hAnti hdir)
      (sortRel_total lc pcNum key _ hAnti hdir) l
    refine List.Pairwise.imp ?_ hs
    intro a b h
    constructor
    · intro ha
      by_contra hb
      unfold sortRel at h
      rw [ha] at h
      rcases hvb : colVal pcNum key b with _ | sb | xb
      · exact hb hvb
      · rw [hvb] at h
        simp at h
      · rw [hvb] at h
        simp at h
    · intro ha hb
      unfold sortRel at h
      rcases hva : colVal pcNum key a with _ | sa | xa
      · exact absurd hva ha
      · rcases hvb : colVal pcNum key b with _ | sb | xb
        · exact absurd hvb hb
        · rw [hva, hvb] at h
          simpa using h
        · rw [hva, hvb] at h
          simp [cmpVals]
      · rcases hvb : colVal pcNum key b with _ | sb | xb
        · exact absurd hvb hb
        · rw [hva, hvb] at h
          simp [cmpVals]
        · rw [hva, hvb] at h
          simpa using h
  · exact List.mergeSort_perm l _

/-- Witness for C8: a two-row list sorted on the rent column with the
trivial locale comparison. -/
theorem claim_C8_column_sort_witness :
    (sortColumn (fun _ _ => 0) (fun _ => 0) ColKey.rentCol true
        [⟨"2000", "A", JSNum.null, none, JSNum.undef⟩,
         ⟨"2010", "B", JSNum.num 1, some 500, JSNum.undef⟩]).Pairwise (fun a b =>
      (colVal (fun _ => 0) ColKey.rentCol a = CVal.cnull →
        colVal (fun _ => 0) ColKey.rentCol b = CVal.cnull) ∧
      (colVal (fun _ => 0) ColKey.rentCol a ≠ CVal.cnull →
        colVal (fun _ => 0) ColKey.rentCol b ≠ CVal.cnull →
        cmpVals (fun _ _ => 0) (if true then -1 else 1)
          (colVal (fun _ => 0) ColKey.rentCol a)
          (colVal (fun _ => 0) ColKey.rentCol b) ≤ 0)) ∧
    (sortColumn (fun _ _ => 0) (fun _ => 0) ColKey.rentCol true
        [⟨"2000", "A", JSNum.null, none, JSNum.undef⟩,
         ⟨"2010", "B", JSNum.num 1, some 500, JSNum.undef⟩]).Perm
      [⟨"2000", "A", JSNum.null, none, JSNum.undef⟩,
       ⟨"2010", "B", JSNum.num 1, some 500, JSNum.undef⟩] :=
  claim_C8_column_sort (fun _ _ => 0) (fun _ => 0) ColKey.rentCol true
    [⟨"2000", "A", JSNum.null, none, JSNum.undef⟩,
     ⟨"2010", "B", JSNum.num 1, some 500, JSNum.undef⟩]
    (fun _ _ _ h1 _ => h1) (fun _ _ => Iff.rfl)

/-- Counterexample to C9: the filter lowercases the query but not the
postcode, so a row whose postcode "2A00" equals the query "2A00" —
certainly a case-insensitive substring match — is not selected. -/
theorem claim_C9_counterexample :
    filterTable "2A00" [⟨"2A00", "Xton", JSNum.null, none, JSNum.null⟩] = [] ∧
    jsIncludes (jsToLower "2A00") (jsToLower "2A00") = true := by
  constructor <;> rfl

/-- Amended C9: filtering selects exactly the rows whose postal code
contains the lowercased-and-trimmed query verbatim (case-sensitively),
or whose display label contains it after the label is lowercased; the
selection is a sublist of the input, so relative order is preserved,
and the model is a pure function of the stored row list, which it
never mutates. -/
theorem claim_C9_amended (query : String) (l : List DisplayRow) :
    (filterTable query l).Sublist l ∧
    ∀ r, r ∈ filterTable query l ↔
      r ∈ l ∧ (jsIncludes r.postcode (jsTrimStr (jsToLower query))
        || jsIncludes (jsToLower r.suburb) (jsTrimStr (jsToLower query))) = true := by
  constructor
  · exact List.filter_sublist _
  · intro r
    simp [filterTable, List.mem_filter]
